import Mathlib

/-!
Shallow embedding of the SDL-Rendering repository (three C++ translation units:
`src/unnamed/part_000`, `src/unnamed/part_001`, `src/sdl-test/main.cpp`).

Each program is a straight-line sequence of SDL library calls with error checks.
We embed a program as a function from an `Oracle` (the environment's answers to
every fallible or value-returning library call) to the pair of
(the list of observable events the run performs, the process exit status).

`src/unnamed/part_000` and `src/sdl-test/main.cpp` contain behaviourally
identical `main` functions (same calls, same literals, same messages, same
cleanup); they are embedded once as `mainSingle`.  `src/unnamed/part_001` is
the two-texture variant, embedded as `mainTwo`.  `loadTexture` and
`RenderTexture` are the two helper functions of `part_001` (the identical
`loadTexture` also appears unused in `sdl-test/main.cpp`).
-/

namespace SDLSpec

/-- Which standard stream a diagnostic line is written to
    (`std::cout` vs `std::cerr`). -/
inductive OutStream where
  | stdout
  | stderr
deriving DecidableEq, BEq, Repr

/-- The SDL_Rect used for the destination rectangle in `RenderTexture`.
    Each field is `Option Int`: `none` models a field that was never assigned
    (the C++ struct is stack-allocated and uninitialized). -/
structure Rect where
  x : Option Int
  y : Option Int
  w : Option Int
  h : Option Int
deriving DecidableEq, BEq, Repr

/-- Observable events of a run: every SDL call the programs make, plus the
    diagnostic lines they write.  Textures and surfaces are identified by the
    file path they were loaded from (each path is loaded at most once per
    program, so this is injective). -/
inductive Ev where
  | sdlInit (ok : Bool)
  | createWindow (title : String) (x y w hgt : Int) (ok : Bool)
  | createRenderer (ok : Bool)
  | loadBMP (path : String) (ok : Bool)
  | createTextureFromSurface (path : String) (ok : Bool)
  | freeSurface (path : String)
  | queryTexture (path : String)
  | renderTextureCall (path : String) (x y : Int)
  | renderClear
  | renderCopy (path : String) (dst : Option Rect)
  | renderPresent
  | delay (ms : Nat)
  | destroyTexture (path : String)
  | destroyRenderer
  | destroyWindow
  | quit
  | output (s : OutStream) (line : String)
deriving DecidableEq, BEq, Repr

/-- The environment's responses to the programs' library calls:
    whether `SDL_Init` / `SDL_CreateWindow` / `SDL_CreateRenderer` succeed,
    whether `SDL_LoadBMP` of a given path succeeds, whether
    `SDL_CreateTextureFromSurface` of the surface decoded from a given path
    succeeds, the dimensions `SDL_QueryTexture` reports for the texture loaded
    from a given path, and the text `SDL_GetError` returns. -/
structure Oracle where
  initOK : Bool
  windowOK : Bool
  rendererOK : Bool
  decodeOK : String → Bool
  convertOK : String → Bool
  texW : String → Nat
  texH : String → Nat
  sdlError : String

/-- Source: `const auto SCREEN_WIDTH = 640;` (part_001). -/
def SCREEN_WIDTH : Int := 640

/-- Source: `const auto SCREEN_HEIGHT = 480;` (part_001). -/
def SCREEN_HEIGHT : Int := 480

/-- The `EXIT_SUCCESS` value of `<cstdlib>`. -/
def EXIT_SUCCESS : Int := 0

/-- The `EXIT_FAILURE` value of `<cstdlib>`. -/
def EXIT_FAILURE : Int := 1

/-- Background image path hardcoded in part_001 `main`. -/
def bgPath : String := "C:\\Users\\jflop\\source\\repos\\sdl-test\\sdl-test\\img\\background.bmp"

/-- Foreground image path hardcoded in part_001 `main`. -/
def fgPath : String := "C:\\Users\\jflop\\source\\repos\\sdl-test\\sdl-test\\img\\foreground.bmp"

/-- Source: `std::string imagePath = "C:/Users/jflop/Downloads/swirl_effect.bmp";`
    (part_000 and sdl-test/main.cpp). -/
def swirlPath : String := "C:/Users/jflop/Downloads/swirl_effect.bmp"

/-- Embeds `void LogSDLError(std::ostream& os, const std::string& errorMessage)`
    (part_001 lines 9-11; identical in sdl-test/main.cpp lines 10-12):
    `os << errorMessage << " error: " << SDL_GetError() << '\n';`. -/
def LogSDLError (o : Oracle) (s : OutStream) (errorMessage : String) : Ev :=
  Ev.output s (errorMessage ++ " error: " ++ o.sdlError)

/-- The ad-hoc diagnostics of part_000 / sdl-test `main`:
    `std::cout << "<op> Error: " << SDL_GetError() << '\n';`. -/
def coutError (o : Oracle) (opName : String) : Ev :=
  Ev.output OutStream.stdout (opName ++ " Error: " ++ o.sdlError)

/-- Embeds `SDL_Texture* loadTexture(const std::string& filename, SDL_Renderer*)`
    (part_001 lines 13-34; identical in sdl-test/main.cpp lines 14-35).
    Returns the texture handle (`some filename`, since textures are identified
    by their path) or `none`, together with the events performed:
    decode; if the decode succeeded, convert to a texture and free the surface
    (the free happens regardless of the conversion outcome), logging
    `"LoadBMP"` to `std::cerr` on a conversion failure; on a decode failure,
    log `"LoadBMP"` to `std::cerr` and return null. -/
def loadTexture (o : Oracle) (filename : String) : Option String × List Ev :=
  if o.decodeOK filename then
    let ok := o.convertOK filename
    let evs := [Ev.loadBMP filename true,
                Ev.createTextureFromSurface filename ok,
                Ev.freeSurface filename]
    if ok then
      (some filename, evs)
    else
      (none, evs ++ [LogSDLError o OutStream.stderr "LoadBMP"])
  else
    (none, [Ev.loadBMP filename false, LogSDLError o OutStream.stderr "LoadBMP"])

/-- Embeds `void RenderTexture(SDL_Texture*, SDL_Renderer*, int x, int y)`
    (part_001 lines 36-45).  The destination rectangle is built exactly as in
    the source: `destination.x = x; destination.y = y;` and then
    `SDL_QueryTexture(texture, NULL, NULL, &destination.w, &destination.x);`
    — the height out-parameter of the query is `&destination.x`, so the
    texture's height overwrites the `x` argument, and `destination.h` is never
    assigned (`none`).  A `renderTextureCall` event records the invocation and
    its requested position. -/
def RenderTexture (o : Oracle) (texture : String) (x y : Int) : List Ev :=
  let d0 : Rect := { x := some x, y := some y, w := none, h := none }
  let destination : Rect :=
    { d0 with w := some (o.texW texture : Int), x := some (o.texH texture : Int) }
  [Ev.renderTextureCall texture x y,
   Ev.queryTexture texture,
   Ev.renderCopy texture (some destination)]

/-- One iteration of the part_001 frame loop (lines 160-185).
    `int bW = 0; int bH = 0;
     SDL_QueryTexture(background, NULL, NULL, &bW, &bW);`
    — both out-parameters alias `bW`: the query writes the width and then the
    height into `bW`, so `bW` ends up holding the background texture's height
    and `bH` stays 0.  Then the four background tiles, the centered
    foreground, present, and a 1000 ms delay. -/
def frameTwo (o : Oracle) : List Ev :=
  let bW : Int := (o.texH bgPath : Int)
  let bH : Int := 0
  let iW : Int := (o.texW fgPath : Int)
  let iH : Int := (o.texH fgPath : Int)
  let x : Int := SCREEN_WIDTH / 2 - iW / 2
  let y : Int := SCREEN_HEIGHT / 2 - iH / 2
  [Ev.renderClear, Ev.queryTexture bgPath]
    ++ RenderTexture o bgPath 0 0
    ++ RenderTexture o bgPath bW 0
    ++ RenderTexture o bgPath 0 bH
    ++ RenderTexture o bgPath bW bH
    ++ [Ev.queryTexture fgPath]
    ++ RenderTexture o fgPath x y
    ++ [Ev.renderPresent, Ev.delay 1000]

/-- The copy phase of one part_001 frame: the events of `frameTwo` strictly
    between `SDL_RenderClear` and `SDL_RenderPresent` — the background
    dimension query and the five `RenderTexture` invocations.  (`frameTwo`
    equals `Ev.renderClear :: midTwo o ++ [Ev.renderPresent, Ev.delay 1000]`
    definitionally.) -/
def midTwo (o : Oracle) : List Ev :=
  [Ev.queryTexture bgPath]
    ++ RenderTexture o bgPath 0 0
    ++ RenderTexture o bgPath (o.texH bgPath : Int) 0
    ++ RenderTexture o bgPath 0 0
    ++ RenderTexture o bgPath (o.texH bgPath : Int) 0
    ++ [Ev.queryTexture fgPath]
    ++ RenderTexture o fgPath
        (SCREEN_WIDTH / 2 - (o.texW fgPath : Int) / 2)
        (SCREEN_HEIGHT / 2 - (o.texH fgPath : Int) / 2)

/-- One iteration of the part_000 / sdl-test frame loop:
    `SDL_RenderClear; SDL_RenderCopy(renderer, texture, NULL, NULL);
     SDL_RenderPresent; SDL_Delay(1000);`.  The `NULL` destination is
    modelled as `none`. -/
def frameSingle : List Ev :=
  [Ev.renderClear, Ev.renderCopy swirlPath none, Ev.renderPresent, Ev.delay 1000]

/-- Embeds `main` of `src/unnamed/part_000`, behaviourally identical to `main` of
    `src/sdl-test/main.cpp`: init → window → renderer → `SDL_LoadBMP` →
    `SDL_CreateTextureFromSurface` (freeing the surface immediately) → three
    frames → teardown.  Every failure prints `"<op> Error: <SDL_GetError()>"`
    to `std::cout` and releases the handles acquired so far before `SDL_Quit`
    and `return EXIT_FAILURE`.  `argv` is the command line; the source never
    reads `argc`/`argv`. -/
def mainSingle (_argv : List String) (o : Oracle) : List Ev × Int :=
  if !o.initOK then
    ([Ev.sdlInit false, coutError o "SDL_Init"], EXIT_FAILURE)
  else if !o.windowOK then
    ([Ev.sdlInit true,
      Ev.createWindow "Hello, World!" 100 100 640 480 false,
      coutError o "SDL_CreateWindow", Ev.quit], EXIT_FAILURE)
  else if !o.rendererOK then
    ([Ev.sdlInit true,
      Ev.createWindow "Hello, World!" 100 100 640 480 true,
      Ev.createRenderer false,
      Ev.destroyWindow,
      coutError o "SDL_CreateRenderer", Ev.quit], EXIT_FAILURE)
  else if !o.decodeOK swirlPath then
    ([Ev.sdlInit true,
      Ev.createWindow "Hello, World!" 100 100 640 480 true,
      Ev.createRenderer true,
      Ev.loadBMP swirlPath false,
      Ev.destroyRenderer, Ev.destroyWindow,
      coutError o "SDL_LoadBMP", Ev.quit], EXIT_FAILURE)
  else
    let convOK := o.convertOK swirlPath
    let pre := [Ev.sdlInit true,
                Ev.createWindow "Hello, World!" 100 100 640 480 true,
                Ev.createRenderer true,
                Ev.loadBMP swirlPath true,
                Ev.createTextureFromSurface swirlPath convOK,
                Ev.freeSurface swirlPath]
    if !convOK then
      (pre ++ [Ev.destroyRenderer, Ev.destroyWindow,
               coutError o "SDL_CreateTextureFromSurface", Ev.quit], EXIT_FAILURE)
    else
      (pre ++ (List.replicate 3 frameSingle).flatten
          ++ [Ev.destroyTexture swirlPath,
              Ev.destroyRenderer, Ev.destroyWindow, Ev.quit], EXIT_SUCCESS)

/-- Embeds `main` of `src/unnamed/part_001` (the two-texture variant):
    init → window → renderer → `loadTexture` of the background and the
    foreground → if either is null, destroy renderer and window, log
    `"LoadTexture"` and fail (note: the source destroys no texture on this
    path, even when one of the two loads succeeded) → otherwise three
    iterations of `frameTwo` → destroy background, foreground, renderer,
    window → `SDL_Quit` → `EXIT_SUCCESS`.  Diagnostics go through
    `LogSDLError(std::cerr, ...)`.  `argv` is never read. -/
def mainTwo (_argv : List String) (o : Oracle) : List Ev × Int :=
  if !o.initOK then
    ([Ev.sdlInit false, LogSDLError o OutStream.stderr "SDL_Init"], EXIT_FAILURE)
  else if !o.windowOK then
    ([Ev.sdlInit true,
      Ev.createWindow "Hello, World!" 100 100 SCREEN_WIDTH SCREEN_HEIGHT false,
      LogSDLError o OutStream.stderr "CreateWindow", Ev.quit], EXIT_FAILURE)
  else if !o.rendererOK then
    ([Ev.sdlInit true,
      Ev.createWindow "Hello, World!" 100 100 SCREEN_WIDTH SCREEN_HEIGHT true,
      Ev.createRenderer false,
      Ev.destroyWindow,
      LogSDLError o OutStream.stderr "CreateRenderer", Ev.quit], EXIT_FAILURE)
  else
    let background := loadTexture o bgPath
    let foreground := loadTexture o fgPath
    let pre := [Ev.sdlInit true,
                Ev.createWindow "Hello, World!" 100 100 SCREEN_WIDTH SCREEN_HEIGHT true,
                Ev.createRenderer true]
                ++ background.2 ++ foreground.2
    if background.1.isNone || foreground.1.isNone then
      (pre ++ [Ev.destroyRenderer, Ev.destroyWindow,
               LogSDLError o OutStream.stderr "LoadTexture", Ev.quit], EXIT_FAILURE)
    else
      (pre ++ (List.replicate 3 (frameTwo o)).flatten
          ++ [Ev.destroyTexture bgPath, Ev.destroyTexture fgPath,
              Ev.destroyRenderer, Ev.destroyWindow, Ev.quit], EXIT_SUCCESS)

/-! ## Handle accounting

Machinery for the resource-lifecycle claims: which event acquires, releases,
or uses which handle. -/

/-- The handles the programs manage: the SDL session (`SDL_Init`/`SDL_Quit`),
    the window, the renderer, and the per-path surfaces and textures. -/
inductive Handle where
  | session
  | window
  | renderer
  | surface (path : String)
  | texture (path : String)
deriving DecidableEq, BEq, Repr

/-- The handle (if any) an event successfully acquires. -/
def acqOf : Ev → Option Handle
  | Ev.sdlInit true => some Handle.session
  | Ev.createWindow _ _ _ _ _ true => some Handle.window
  | Ev.createRenderer true => some Handle.renderer
  | Ev.loadBMP p true => some (Handle.surface p)
  | Ev.createTextureFromSurface p true => some (Handle.texture p)
  | _ => none

/-- The handle (if any) an event releases. -/
def relOf : Ev → Option Handle
  | Ev.quit => some Handle.session
  | Ev.destroyWindow => some Handle.window
  | Ev.destroyRenderer => some Handle.renderer
  | Ev.freeSurface p => some (Handle.surface p)
  | Ev.destroyTexture p => some (Handle.texture p)
  | _ => none

/-- The handles an event uses (passes to a library call), other than the
    acquisition and release events themselves. -/
def usesOf : Ev → List Handle
  | Ev.createWindow _ _ _ _ _ _ => [Handle.session]
  | Ev.createRenderer _ => [Handle.window]
  | Ev.loadBMP _ _ => [Handle.session]
  | Ev.createTextureFromSurface p _ => [Handle.renderer, Handle.surface p]
  | Ev.queryTexture p => [Handle.texture p]
  | Ev.renderTextureCall p _ _ => [Handle.texture p, Handle.renderer]
  | Ev.renderClear => [Handle.renderer]
  | Ev.renderCopy p _ => [Handle.renderer, Handle.texture p]
  | Ev.renderPresent => [Handle.renderer]
  | _ => []

/-- Occurrences of a handle in a list. -/
def hcount (g : Handle) : List Handle → Nat
  | [] => 0
  | x :: xs => (if x = g then 1 else 0) + hcount g xs

/-- How many times a trace successfully acquires handle `g`. -/
def acqCount (t : List Ev) (g : Handle) : Nat := hcount g (t.filterMap acqOf)

/-- How many times a trace releases handle `g`. -/
def relCount (t : List Ev) (g : Handle) : Nat := hcount g (t.filterMap relOf)

/-- The session, window and renderer handles (the ones acquired in a fixed
    order in every variant). -/
def isCore : Handle → Bool
  | Handle.session => true
  | Handle.window => true
  | Handle.renderer => true
  | _ => false

/-- The session/window/renderer acquisitions of a trace, in order. -/
def coreAcqs (t : List Ev) : List Handle := (t.filterMap acqOf).filter isCore

/-- The session/window/renderer releases of a trace, in order. -/
def coreRels (t : List Ev) : List Handle := (t.filterMap relOf).filter isCore

/-- Is the handle in the list? -/
def hmem (g : Handle) : List Handle → Bool
  | [] => false
  | x :: xs => if x = g then true else hmem g xs

/-- Are all the handles of the first list in the second? -/
def hall (gs acquired : List Handle) : Bool :=
  match gs with
  | [] => true
  | g :: rest => hmem g acquired && hall rest acquired

/-- Scan a trace keeping the set of already-acquired handles; `false` as soon
    as an event uses a handle that has not been acquired yet. -/
def scanUse (acquired : List Handle) : List Ev → Bool
  | [] => true
  | e :: rest =>
    hall (usesOf e) acquired &&
      scanUse
        (match acqOf e with
         | some g => g :: acquired
         | none => acquired) rest

/-- No event of the trace uses a handle before that handle's creation step
    reported success. -/
def noUseBeforeAcq (t : List Ev) : Bool := scanUse [] t

/-! ## Trace observers for the rendering and diagnostic claims -/

/-- The requested positions of the `RenderTexture` calls for a given texture,
    in trace order. -/
def callPositions (p : String) (t : List Ev) : List (Int × Int) :=
  t.filterMap fun e =>
    match e with
    | Ev.renderTextureCall q x y => if q = p then some (x, y) else none
    | _ => none

/-- The destination rectangles passed to `SDL_RenderCopy` in a trace
    (only the non-`NULL` ones). -/
def copyRects (t : List Ev) : List Rect :=
  t.filterMap fun e =>
    match e with
    | Ev.renderCopy _ (some r) => some r
    | _ => none

/-- The diagnostic lines of a trace, with the stream each was written to. -/
def outputsOf (t : List Ev) : List (OutStream × String) :=
  t.filterMap fun e =>
    match e with
    | Ev.output s l => some (s, l)
    | _ => none

/-- Does a `SDL_CreateTextureFromSurface` call occur anywhere after a failed
    `SDL_LoadBMP` in the trace? -/
def uploadAfterDecodeFail : List Ev → Bool
  | [] => false
  | Ev.loadBMP _ false :: rest =>
    rest.any (fun e => match e with
      | Ev.createTextureFromSurface _ _ => true
      | _ => false) || uploadAfterDecodeFail rest
  | _ :: rest => uploadAfterDecodeFail rest

/-- Is the event one of the rendering operations
    (clear / copy / present, or a `RenderTexture` invocation)? -/
def isRenderOp : Ev → Bool
  | Ev.renderClear => true
  | Ev.renderCopy _ _ => true
  | Ev.renderTextureCall _ _ _ => true
  | Ev.renderPresent => true
  | _ => false

/-- Is the event a `SDL_CreateTextureFromSurface` call? -/
def isUpload : Ev → Bool
  | Ev.createTextureFromSurface _ _ => true
  | _ => false

/-- Is the event a `SDL_RenderClear` call? -/
def isClear : Ev → Bool
  | Ev.renderClear => true
  | _ => false

/-- Is the event a `SDL_RenderPresent` call? -/
def isPresent : Ev → Bool
  | Ev.renderPresent => true
  | _ => false

/-- Is the event a `SDL_Delay` call? -/
def isDelay : Ev → Bool
  | Ev.delay _ => true
  | _ => false

/-- Is the event part of the copy phase of a frame
    (a texture query, a `RenderTexture` invocation, or a copy)? -/
def isCopyPhase : Ev → Bool
  | Ev.queryTexture _ => true
  | Ev.renderTextureCall _ _ _ => true
  | Ev.renderCopy _ _ => true
  | _ => false

/-- All acquisition steps of the single-texture variant succeed. -/
def allOKSingle (o : Oracle) : Bool :=
  o.initOK && o.windowOK && o.rendererOK &&
    o.decodeOK swirlPath && o.convertOK swirlPath

/-- All acquisition steps of the two-texture variant succeed. -/
def allOKTwo (o : Oracle) : Bool :=
  o.initOK && o.windowOK && o.rendererOK &&
    o.decodeOK bgPath && o.convertOK bgPath &&
    o.decodeOK fgPath && o.convertOK fgPath

/-! ## Concrete environments used for counterexamples and witnesses -/

/-- Every library call succeeds; the textures are 7 wide and 5 tall. -/
def oAll : Oracle :=
  { initOK := true, windowOK := true, rendererOK := true,
    decodeOK := fun _ => true, convertOK := fun _ => true,
    texW := fun _ => 7, texH := fun _ => 5, sdlError := "E" }

/-- Only the background image decodes; the foreground decode fails. -/
def oLeak : Oracle := { oAll with decodeOK := fun p => p == bgPath }

/-- The background decode fails but the foreground decodes fine. -/
def oBgFail : Oracle := { oAll with decodeOK := fun p => p == fgPath }

/-- All acquisitions succeed; the background texture is 2 wide and 3 tall. -/
def oTile : Oracle := { oAll with texW := fun _ => 2, texH := fun _ => 3 }

/-- The `SDL_Init` call itself fails. -/
def oInitFail : Oracle := { oAll with initOK := false, sdlError := "boom" }

/-- Renderer creation fails (after a successful window). -/
def oRendFail : Oracle := { oAll with rendererOK := false }

/-- Every image decode fails. -/
def oDecodeFail : Oracle := { oAll with decodeOK := fun _ => false }

/-- Decoding succeeds but texture conversion fails. -/
def oConvFail : Oracle := { oAll with convertOK := fun _ => false }


/-! ## Claim C1: handle lifecycle -/

/-- C1, counterexample.  The claim says every handle whose creation step
    reported success is released exactly once on every exit path.  In the run
    `oLeak` of the two-texture variant the background texture is created
    successfully, the foreground decode fails, and `main` takes the
    `(!background) || (!foreground)` exit path, which destroys the renderer
    and the window but no texture: the background texture is acquired once
    and released zero times. -/
theorem claim_C1_counterexample :
    acqCount (mainTwo [] oLeak).1 (Handle.texture bgPath) = 1 ∧
    relCount (mainTwo [] oLeak).1 (Handle.texture bgPath) = 0 ∧
    (mainTwo [] oLeak).2 = EXIT_FAILURE :=
  ⟨rfl, rfl, rfl⟩

set_option maxHeartbeats 1000000 in
theorem mainSingle_lifecycle (argv : List String) (o : Oracle) :
    relCount (mainSingle argv o).1 Handle.session
        = acqCount (mainSingle argv o).1 Handle.session ∧
    relCount (mainSingle argv o).1 Handle.window
        = acqCount (mainSingle argv o).1 Handle.window ∧
    relCount (mainSingle argv o).1 Handle.renderer
        = acqCount (mainSingle argv o).1 Handle.renderer ∧
    relCount (mainSingle argv o).1 (Handle.surface swirlPath)
        = acqCount (mainSingle argv o).1 (Handle.surface swirlPath) ∧
    relCount (mainSingle argv o).1 (Handle.texture swirlPath)
        = acqCount (mainSingle argv o).1 (Handle.texture swirlPath) ∧
    coreRels (mainSingle argv o).1 = (coreAcqs (mainSingle argv o).1).reverse ∧
    noUseBeforeAcq (mainSingle argv o).1 = true := by
  simp only [mainSingle]
  cases hi : o.initOK
  · exact ⟨rfl, rfl, rfl, rfl, rfl, rfl, rfl⟩
  · cases hw : o.windowOK
    · exact ⟨rfl, rfl, rfl, rfl, rfl, rfl, rfl⟩
    · cases hr : o.rendererOK
      · exact ⟨rfl, rfl, rfl, rfl, rfl, rfl, rfl⟩
      · cases hds : o.decodeOK swirlPath <;> cases hcs : o.convertOK swirlPath <;>
          exact ⟨rfl, rfl, rfl, rfl, rfl, rfl, rfl⟩

set_option maxHeartbeats 1000000 in
theorem mainTwo_lifecycle (argv : List String) (o : Oracle) :
    relCount (mainTwo argv o).1 Handle.session
        = acqCount (mainTwo argv o).1 Handle.session ∧
    relCount (mainTwo argv o).1 Handle.window
        = acqCount (mainTwo argv o).1 Handle.window ∧
    relCount (mainTwo argv o).1 Handle.renderer
        = acqCount (mainTwo argv o).1 Handle.renderer ∧
    relCount (mainTwo argv o).1 (Handle.surface bgPath)
        = acqCount (mainTwo argv o).1 (Handle.surface bgPath) ∧
    relCount (mainTwo argv o).1 (Handle.surface fgPath)
        = acqCount (mainTwo argv o).1 (Handle.surface fgPath) ∧
    relCount (mainTwo argv o).1 (Handle.texture bgPath)
        = cond (allOKTwo o) (acqCount (mainTwo argv o).1 (Handle.texture bgPath)) 0 ∧
    relCount (mainTwo argv o).1 (Handle.texture fgPath)
        = cond (allOKTwo o) (acqCount (mainTwo argv o).1 (Handle.texture fgPath)) 0 ∧
    coreRels (mainTwo argv o).1 = (coreAcqs (mainTwo argv o).1).reverse ∧
    noUseBeforeAcq (mainTwo argv o).1 = true := by
  simp only [mainTwo, loadTexture, allOKTwo]
  cases hi : o.initOK
  · exact ⟨rfl, rfl, rfl, rfl, rfl, rfl, rfl, rfl, rfl⟩
  · cases hw : o.windowOK
    · exact ⟨rfl, rfl, rfl, rfl, rfl, rfl, rfl, rfl, rfl⟩
    · cases hr : o.rendererOK
      · exact ⟨rfl, rfl, rfl, rfl, rfl, rfl, rfl, rfl, rfl⟩
      · cases hdb : o.decodeOK bgPath <;> cases hcb : o.convertOK bgPath <;>
          cases hdf : o.decodeOK fgPath <;> cases hcf : o.convertOK fgPath <;>
          simp [relCount, acqCount, relOf, acqOf, hcount, coreRels, coreAcqs, isCore,
                noUseBeforeAcq, scanUse, usesOf, hall, hmem, frameTwo, RenderTexture,
                LogSDLError, bgPath, fgPath]

/-- C1, as amended.  For every environment and command line, in both program
    variants: the session, window, renderer and every image surface are
    released exactly as many times as they are successfully acquired, on every
    exit path, and the single-texture variant also balances its texture; but
    in the two-texture variant the textures are released (exactly once each)
    only on the fully successful path — on the exit path where at least one
    of the two texture loads fails, no texture is released at all, so a
    texture that was created successfully leaks.  The session, window and
    renderer are released in reverse order of acquisition; full LIFO order
    does not extend to surfaces and textures (each surface is freed before
    the texture made from it, and the background texture is destroyed before
    the foreground one).  No handle is ever used before its creation step
    reports success. -/
theorem claim_C1_amended (argv : List String) (o : Oracle) :
    relCount (mainSingle argv o).1 Handle.session
        = acqCount (mainSingle argv o).1 Handle.session ∧
    relCount (mainSingle argv o).1 Handle.window
        = acqCount (mainSingle argv o).1 Handle.window ∧
    relCount (mainSingle argv o).1 Handle.renderer
        = acqCount (mainSingle argv o).1 Handle.renderer ∧
    relCount (mainSingle argv o).1 (Handle.surface swirlPath)
        = acqCount (mainSingle argv o).1 (Handle.surface swirlPath) ∧
    relCount (mainSingle argv o).1 (Handle.texture swirlPath)
        = acqCount (mainSingle argv o).1 (Handle.texture swirlPath) ∧
    relCount (mainTwo argv o).1 Handle.session
        = acqCount (mainTwo argv o).1 Handle.session ∧
    relCount (mainTwo argv o).1 Handle.window
        = acqCount (mainTwo argv o).1 Handle.window ∧
    relCount (mainTwo argv o).1 Handle.renderer
        = acqCount (mainTwo argv o).1 Handle.renderer ∧
    relCount (mainTwo argv o).1 (Handle.surface bgPath)
        = acqCount (mainTwo argv o).1 (Handle.surface bgPath) ∧
    relCount (mainTwo argv o).1 (Handle.surface fgPath)
        = acqCount (mainTwo argv o).1 (Handle.surface fgPath) ∧
    relCount (mainTwo argv o).1 (Handle.texture bgPath)
        = cond (allOKTwo o) (acqCount (mainTwo argv o).1 (Handle.texture bgPath)) 0 ∧
    relCount (mainTwo argv o).1 (Handle.texture fgPath)
        = cond (allOKTwo o) (acqCount (mainTwo argv o).1 (Handle.texture fgPath)) 0 ∧
    coreRels (mainSingle argv o).1 = (coreAcqs (mainSingle argv o).1).reverse ∧
    coreRels (mainTwo argv o).1 = (coreAcqs (mainTwo argv o).1).reverse ∧
    noUseBeforeAcq (mainSingle argv o).1 = true ∧
    noUseBeforeAcq (mainTwo argv o).1 = true := by
  obtain ⟨s1, s2, s3, s4, s5, sCore, sUse⟩ := mainSingle_lifecycle argv o
  obtain ⟨t1, t2, t3, t4, t5, tb, tf, tCore, tUse⟩ := mainTwo_lifecycle argv o
  exact ⟨s1, s2, s3, s4, s5, t1, t2, t3, t4, t5, tb, tf, sCore, tCore, sUse, tUse⟩

/-! ## Claim C7: window destroyed when renderer creation fails -/

/-- C7: in both variants, if `SDL_Init` and `SDL_CreateWindow` succeed and
    `SDL_CreateRenderer` returns null, the window is destroyed exactly once
    and the process exits with the failure status. -/
theorem claim_C7 (argv : List String) (o : Oracle)
    (hi : o.initOK = true) (hw : o.windowOK = true) (hr : o.rendererOK = false) :
    relCount (mainSingle argv o).1 Handle.window = 1 ∧
    (mainSingle argv o).2 = EXIT_FAILURE ∧
    relCount (mainTwo argv o).1 Handle.window = 1 ∧
    (mainTwo argv o).2 = EXIT_FAILURE := by
  simp only [mainSingle, mainTwo, hi, hw, hr]
  exact ⟨rfl, rfl, rfl, rfl⟩

/-- C7 witness: the concrete environment `oRendFail` satisfies the
    hypotheses, and the conclusion holds there. -/
theorem claim_C7_witness :
    oRendFail.initOK = true ∧ oRendFail.windowOK = true ∧
    oRendFail.rendererOK = false ∧
    (relCount (mainSingle [] oRendFail).1 Handle.window = 1 ∧
     (mainSingle [] oRendFail).2 = EXIT_FAILURE ∧
     relCount (mainTwo [] oRendFail).1 Handle.window = 1 ∧
     (mainTwo [] oRendFail).2 = EXIT_FAILURE) :=
  ⟨rfl, rfl, rfl, claim_C7 [] oRendFail rfl rfl rfl⟩

/-! ## Claim C9: the aliased destination rectangle in RenderTexture -/

/-- C9: for every texture, environment and requested position `(x, y)`,
    the destination rectangle `RenderTexture` passes to `SDL_RenderCopy` has
    its `x` field equal to the texture's queried height (the height
    out-parameter of `SDL_QueryTexture` is `&destination.x`, overwriting the
    `x` argument), its `h` field never assigned, and only the `y` and `w`
    fields holding the intended values (the `y` argument and the queried
    width). -/
theorem claim_C9 (o : Oracle) (texture : String) (x y : Int) :
    copyRects (RenderTexture o texture x y) =
      [{ x := some (o.texH texture : Int), y := some y,
         w := some (o.texW texture : Int), h := none }] := rfl

/-! ## Claim C10: command-line arguments are never consulted -/

/-- C10: both variants' behaviour — the full event trace (diagnostics and
    rendering calls) and the exit status — is identical for any two command
    lines: `argc`/`argv` are never read. -/
theorem claim_C10 (argv1 argv2 : List String) (o : Oracle) :
    mainSingle argv1 o = mainSingle argv2 o ∧ mainTwo argv1 o = mainTwo argv2 o :=
  ⟨rfl, rfl⟩

/-! ## Claim C4: the centering computation -/

/-- C4: on every fully successful run of the two-texture variant, each of the
    three frames invokes `RenderTexture` on the foreground texture at exactly
    `(320 - iW/2, 240 - iH/2)` where `iW`/`iH` are the foreground texture's
    queried width and height, with truncating integer division (the operands
    are the non-negative queried dimensions, so `Int` division here is plain
    truncation), on the 640×480 target (`SCREEN_WIDTH/2 = 320`,
    `SCREEN_HEIGHT/2 = 240`). -/
theorem claim_C4 (argv : List String) (o : Oracle) (hok : allOKTwo o = true) :
    callPositions fgPath (mainTwo argv o).1 =
      List.replicate 3
        ((320 : Int) - (o.texW fgPath : Int) / 2,
         (240 : Int) - (o.texH fgPath : Int) / 2) := by
  have h := hok
  simp only [allOKTwo, Bool.and_eq_true] at h
  obtain ⟨⟨⟨⟨⟨⟨hi, hw⟩, hr⟩, hdb⟩, hcb⟩, hdf⟩, hcf⟩ := h
  simp only [mainTwo, loadTexture, hi, hw, hr, hdb, hcb, hdf, hcf]
  simp [callPositions, frameTwo, RenderTexture, LogSDLError, bgPath, fgPath,
        SCREEN_WIDTH, SCREEN_HEIGHT, List.replicate]

/-- C4 witness: at the concrete all-success environment `oAll` (foreground
    texture 7×5) the three frames request the foreground at
    `(320 - 7/2, 240 - 5/2) = (317, 238)`. -/
theorem claim_C4_witness :
    allOKTwo oAll = true ∧
    callPositions fgPath (mainTwo [] oAll).1 =
      List.replicate 3
        ((320 : Int) - (oAll.texW fgPath : Int) / 2,
         (240 : Int) - (oAll.texH fgPath : Int) / 2) :=
  ⟨rfl, claim_C4 [] oAll rfl⟩

/-! ## Claim C3: the background tiling positions -/

/-- C3, counterexample.  The claim says the background is copied at the four
    quadrant origins `(0,0)`, `(w,0)`, `(0,h)`, `(w,h)` of its own queried
    width `w` and height `h`.  In the run `oTile` (background texture 2 wide,
    3 tall, everything succeeding) the four per-frame `RenderTexture`
    requests for the background are `(0,0), (3,0), (0,0), (3,0)` — the
    aliased query `SDL_QueryTexture(background, NULL, NULL, &bW, &bW)` leaves
    the height 3 in `bW` and `bH` stays 0 — so neither `(w,0) = (2,0)` nor
    `(0,h) = (0,3)` is ever requested. -/
theorem claim_C3_counterexample :
    oTile.texW bgPath = 2 ∧ oTile.texH bgPath = 3 ∧
    callPositions bgPath (mainTwo [] oTile).1 =
      [(0, 0), (3, 0), (0, 0), (3, 0),
       (0, 0), (3, 0), (0, 0), (3, 0),
       (0, 0), (3, 0), (0, 0), (3, 0)] ∧
    ¬ (((0 : Int), (3 : Int)) ∈ callPositions bgPath (mainTwo [] oTile).1) ∧
    ¬ (((2 : Int), (0 : Int)) ∈ callPositions bgPath (mainTwo [] oTile).1) := by
  refine ⟨rfl, rfl, rfl, ?_, ?_⟩ <;> decide

/-- C3, as amended.  On every fully successful run of the two-texture
    variant, each frame requests the background at
    `(0,0), (q,0), (0,0), (q,0)` where `q` is the background texture's
    queried *height*: `SDL_QueryTexture(background, NULL, NULL, &bW, &bW)`
    writes both dimensions into `bW` (the height last, winning), and `bH`
    remains 0, so the intended quadrant origins collapse to two distinct
    positions.  (Independently, `RenderTexture` then overwrites each
    requested x with the texture height before the actual copy; see C9.) -/
theorem claim_C3_amended (argv : List String) (o : Oracle) (hok : allOKTwo o = true) :
    callPositions bgPath (mainTwo argv o).1 =
      (List.replicate 3
        [((0 : Int), (0 : Int)), ((o.texH bgPath : Int), 0),
         (0, 0), ((o.texH bgPath : Int), 0)]).flatten := by
  have h := hok
  simp only [allOKTwo, Bool.and_eq_true] at h
  obtain ⟨⟨⟨⟨⟨⟨hi, hw⟩, hr⟩, hdb⟩, hcb⟩, hdf⟩, hcf⟩ := h
  simp only [mainTwo, loadTexture, hi, hw, hr, hdb, hcb, hdf, hcf]
  simp [callPositions, frameTwo, RenderTexture, LogSDLError, bgPath, fgPath,
        List.replicate]

/-- C3 witness: the amended tiling positions at the concrete environment
    `oTile` (background 2×3). -/
theorem claim_C3_amended_witness :
    allOKTwo oTile = true ∧
    callPositions bgPath (mainTwo [] oTile).1 =
      (List.replicate 3
        [((0 : Int), (0 : Int)), ((oTile.texH bgPath : Int), 0),
         (0, 0), ((oTile.texH bgPath : Int), 0)]).flatten :=
  ⟨rfl, claim_C3_amended [] oTile rfl⟩

/-! ## Claim C6: exactly three frame iterations -/

/-- C6: on every run in which all acquisitions and image loads succeed, both
    variants run the frame loop exactly 3 times (3 clears, 3 presents,
    3 delays in the whole trace), the full trace is setup ++ three copies of
    the frame ++ teardown, and each frame is a renderer clear, then the copy
    operations only, then a present, then the fixed 1000 ms pause, in that
    order. -/
theorem claim_C6 (argv : List String) (o : Oracle)
    (h1 : allOKSingle o = true) (h2 : allOKTwo o = true) :
    (mainSingle argv o).1.countP isClear = 3 ∧
    (mainSingle argv o).1.countP isPresent = 3 ∧
    (mainSingle argv o).1.countP isDelay = 3 ∧
    (mainTwo argv o).1.countP isClear = 3 ∧
    (mainTwo argv o).1.countP isPresent = 3 ∧
    (mainTwo argv o).1.countP isDelay = 3 ∧
    (mainSingle argv o).1 =
      [Ev.sdlInit true, Ev.createWindow "Hello, World!" 100 100 640 480 true,
       Ev.createRenderer true, Ev.loadBMP swirlPath true,
       Ev.createTextureFromSurface swirlPath true, Ev.freeSurface swirlPath]
        ++ (List.replicate 3 frameSingle).flatten
        ++ [Ev.destroyTexture swirlPath, Ev.destroyRenderer,
            Ev.destroyWindow, Ev.quit] ∧
    frameSingle =
      [Ev.renderClear, Ev.renderCopy swirlPath none,
       Ev.renderPresent, Ev.delay 1000] ∧
    (mainTwo argv o).1 =
      [Ev.sdlInit true,
       Ev.createWindow "Hello, World!" 100 100 SCREEN_WIDTH SCREEN_HEIGHT true,
       Ev.createRenderer true,
       Ev.loadBMP bgPath true, Ev.createTextureFromSurface bgPath true,
       Ev.freeSurface bgPath,
       Ev.loadBMP fgPath true, Ev.createTextureFromSurface fgPath true,
       Ev.freeSurface fgPath]
        ++ (List.replicate 3 (frameTwo o)).flatten
        ++ [Ev.destroyTexture bgPath, Ev.destroyTexture fgPath,
            Ev.destroyRenderer, Ev.destroyWindow, Ev.quit] ∧
    frameTwo o = Ev.renderClear :: (midTwo o ++ [Ev.renderPresent, Ev.delay 1000]) ∧
    (midTwo o).all isCopyPhase = true := by
  have h1x := h1
  have h2x := h2
  simp only [allOKSingle, Bool.and_eq_true] at h1x
  simp only [allOKTwo, Bool.and_eq_true] at h2x
  obtain ⟨⟨⟨⟨hi, hw⟩, hr⟩, hds⟩, hcs⟩ := h1x
  obtain ⟨⟨⟨⟨⟨⟨_, _⟩, _⟩, hdb⟩, hcb⟩, hdf⟩, hcf⟩ := h2x
  simp only [mainSingle, mainTwo, loadTexture, hi, hw, hr, hds, hcs, hdb, hcb, hdf, hcf]
  exact ⟨rfl, rfl, rfl, rfl, rfl, rfl, rfl, rfl, rfl, rfl, rfl⟩

/-- C6 witness: at the concrete all-success environment `oAll` both variants
    perform exactly 3 clears. -/
theorem claim_C6_witness :
    allOKSingle oAll = true ∧ allOKTwo oAll = true ∧
    (mainSingle [] oAll).1.countP isClear = 3 ∧
    (mainTwo [] oAll).1.countP isClear = 3 :=
  ⟨rfl, rfl, (claim_C6 [] oAll rfl rfl).1, (claim_C6 [] oAll rfl rfl).2.2.2.1⟩

/-! ## Claim C5: the loadTexture contract -/

/-- C5: for every file path and environment, `loadTexture` behaves as
    specified: a decode failure yields a null result, no texture upload, and
    one `"LoadBMP error: ..."` line on standard error; a successful decode
    performs exactly one upload and frees the intermediate surface exactly
    once regardless of the conversion outcome, returning the texture handle
    and no diagnostic on conversion success, and null with one diagnostic on
    conversion failure. -/
theorem claim_C5 (o : Oracle) (filename : String) :
    (o.decodeOK filename = false →
      (loadTexture o filename).1 = none ∧
      (loadTexture o filename).2.countP isUpload = 0 ∧
      outputsOf (loadTexture o filename).2 =
        [(OutStream.stderr, "LoadBMP" ++ " error: " ++ o.sdlError)]) ∧
    (o.decodeOK filename = true →
      (loadTexture o filename).2.countP isUpload = 1 ∧
      acqCount (loadTexture o filename).2 (Handle.surface filename) = 1 ∧
      relCount (loadTexture o filename).2 (Handle.surface filename) = 1 ∧
      (o.convertOK filename = true →
        (loadTexture o filename).1 = some filename ∧
        outputsOf (loadTexture o filename).2 = []) ∧
      (o.convertOK filename = false →
        (loadTexture o filename).1 = none ∧
        outputsOf (loadTexture o filename).2 =
          [(OutStream.stderr, "LoadBMP" ++ " error: " ++ o.sdlError)])) := by
  constructor
  · intro hd
    simp only [loadTexture, hd]
    exact ⟨rfl, rfl, rfl⟩
  · intro hd
    cases hc : o.convertOK filename <;>
      simp [loadTexture, hd, hc, outputsOf, LogSDLError, acqCount, relCount,
            acqOf, relOf, hcount, isUpload]

/-- C5 witness: the decode-failure case at `oDecodeFail` and the
    convert-failure case at `oConvFail`, both on the background path. -/
theorem claim_C5_witness :
    oDecodeFail.decodeOK bgPath = false ∧
    ((loadTexture oDecodeFail bgPath).1 = none ∧
     (loadTexture oDecodeFail bgPath).2.countP isUpload = 0 ∧
     outputsOf (loadTexture oDecodeFail bgPath).2 =
       [(OutStream.stderr, "LoadBMP" ++ " error: " ++ oDecodeFail.sdlError)]) ∧
    oConvFail.decodeOK bgPath = true ∧ oConvFail.convertOK bgPath = false ∧
    ((loadTexture oConvFail bgPath).1 = none ∧
     outputsOf (loadTexture oConvFail bgPath).2 =
       [(OutStream.stderr, "LoadBMP" ++ " error: " ++ oConvFail.sdlError)]) :=
  ⟨rfl, (claim_C5 oDecodeFail bgPath).1 rfl, rfl, rfl,
   ((claim_C5 oConvFail bgPath).2 rfl).2.2.2.2 rfl⟩

/-! ## Claim C2: behaviour after an image-decode failure -/

/-- C2, counterexample.  The claim says that after any decode failure no
    `SDL_CreateTextureFromSurface` call occurs.  In the run `oBgFail` of the
    two-texture variant the background decode fails, yet the subsequent
    `loadTexture` call for the foreground decodes successfully and uploads
    it — a texture-upload call after a decode failure.  (The run still exits
    with the failure status.) -/
theorem claim_C2_counterexample :
    uploadAfterDecodeFail (mainTwo [] oBgFail).1 = true ∧
    (mainTwo [] oBgFail).2 = EXIT_FAILURE :=
  ⟨rfl, rfl⟩

/-- C2, as amended.  In the single-texture variants a decode failure means no
    texture upload at all, no rendering, and the failure exit status.  In the
    two-texture variant a decode failure still forces the failure exit status
    with no rendering performed, but a failed first decode does not prevent
    the second `loadTexture` call from uploading its own (successfully
    decoded) image; only when both decodes fail is no upload performed. -/
theorem claim_C2_amended (argv : List String) (o : Oracle) :
    (o.decodeOK swirlPath = false →
      (mainSingle argv o).1.countP isUpload = 0 ∧
      (mainSingle argv o).1.countP isRenderOp = 0 ∧
      (mainSingle argv o).2 = EXIT_FAILURE) ∧
    ((o.decodeOK bgPath = false ∨ o.decodeOK fgPath = false) →
      (mainTwo argv o).1.countP isRenderOp = 0 ∧
      (mainTwo argv o).2 = EXIT_FAILURE) ∧
    (o.decodeOK bgPath = false → o.decodeOK fgPath = false →
      (mainTwo argv o).1.countP isUpload = 0) := by
  refine ⟨fun hds => ?_, fun hd => ?_, fun hdb hdf => ?_⟩
  · simp only [mainSingle, hds]
    cases hi : o.initOK
    · exact ⟨rfl, rfl, rfl⟩
    · cases hw : o.windowOK
      · exact ⟨rfl, rfl, rfl⟩
      · cases hr : o.rendererOK <;> exact ⟨rfl, rfl, rfl⟩
  · rcases hd with hdb | hdf
    · simp only [mainTwo, loadTexture, hdb]
      cases hi : o.initOK
      · exact ⟨rfl, rfl⟩
      · cases hw : o.windowOK
        · exact ⟨rfl, rfl⟩
        · cases hr : o.rendererOK
          · exact ⟨rfl, rfl⟩
          · cases hdf2 : o.decodeOK fgPath <;> cases hcf : o.convertOK fgPath <;>
              exact ⟨rfl, rfl⟩
    · simp only [mainTwo, loadTexture, hdf]
      cases hi : o.initOK
      · exact ⟨rfl, rfl⟩
      · cases hw : o.windowOK
        · exact ⟨rfl, rfl⟩
        · cases hr : o.rendererOK
          · exact ⟨rfl, rfl⟩
          · cases hdb2 : o.decodeOK bgPath <;> cases hcb : o.convertOK bgPath <;>
              exact ⟨rfl, rfl⟩
  · simp only [mainTwo, loadTexture, hdb, hdf]
    cases hi : o.initOK
    · rfl
    · cases hw : o.windowOK
      · rfl
      · cases hr : o.rendererOK <;> rfl

/-- C2 witness: both decodes fail in `oDecodeFail`; the amended conclusions
    hold there. -/
theorem claim_C2_amended_witness :
    oDecodeFail.decodeOK swirlPath = false ∧
    oDecodeFail.decodeOK bgPath = false ∧
    oDecodeFail.decodeOK fgPath = false ∧
    ((mainSingle [] oDecodeFail).1.countP isUpload = 0 ∧
     (mainSingle [] oDecodeFail).1.countP isRenderOp = 0 ∧
     (mainSingle [] oDecodeFail).2 = EXIT_FAILURE) ∧
    ((mainTwo [] oDecodeFail).1.countP isRenderOp = 0 ∧
     (mainTwo [] oDecodeFail).2 = EXIT_FAILURE) ∧
    (mainTwo [] oDecodeFail).1.countP isUpload = 0 :=
  ⟨rfl, rfl, rfl,
   (claim_C2_amended [] oDecodeFail).1 rfl,
   (claim_C2_amended [] oDecodeFail).2.1 (Or.inl rfl),
   (claim_C2_amended [] oDecodeFail).2.2 rfl rfl⟩

/-! ## Claim C8: where and how diagnostics are written -/

/-- C8, counterexample.  The claim says every failure diagnostic goes to the
    standard error stream in the form `"<operation> error: <library-error>"`.
    When `SDL_Init` fails in the single-texture variant (part_000 and
    sdl-test/main.cpp), the diagnostic is written to standard *output*
    (`std::cout`), with a capital-E `" Error: "` separator. -/
theorem claim_C8_counterexample :
    outputsOf (mainSingle [] oInitFail).1 =
      [(OutStream.stdout, "SDL_Init Error: boom")] := rfl

set_option maxHeartbeats 1000000 in
theorem mainTwo_outputs (argv : List String) (o : Oracle) :
    outputsOf (mainTwo argv o).1 ⊆
      [(OutStream.stderr, "SDL_Init" ++ " error: " ++ o.sdlError),
       (OutStream.stderr, "CreateWindow" ++ " error: " ++ o.sdlError),
       (OutStream.stderr, "CreateRenderer" ++ " error: " ++ o.sdlError),
       (OutStream.stderr, "LoadBMP" ++ " error: " ++ o.sdlError),
       (OutStream.stderr, "LoadTexture" ++ " error: " ++ o.sdlError)] := by
  simp only [mainTwo, loadTexture]
  cases hi : o.initOK
  · simp [outputsOf, LogSDLError]
  · cases hw : o.windowOK
    · simp [outputsOf, LogSDLError]
    · cases hr : o.rendererOK
      · simp [outputsOf, LogSDLError]
      · cases hdb : o.decodeOK bgPath <;> cases hcb : o.convertOK bgPath <;>
          cases hdf : o.decodeOK fgPath <;> cases hcf : o.convertOK fgPath <;>
          simp [outputsOf, LogSDLError, frameTwo, RenderTexture]

set_option maxHeartbeats 1000000 in
theorem mainSingle_outputs (argv : List String) (o : Oracle) :
    outputsOf (mainSingle argv o).1 ⊆
      [(OutStream.stdout, "SDL_Init" ++ " Error: " ++ o.sdlError),
       (OutStream.stdout, "SDL_CreateWindow" ++ " Error: " ++ o.sdlError),
       (OutStream.stdout, "SDL_CreateRenderer" ++ " Error: " ++ o.sdlError),
       (OutStream.stdout, "SDL_LoadBMP" ++ " Error: " ++ o.sdlError),
       (OutStream.stdout, "SDL_CreateTextureFromSurface" ++ " Error: " ++ o.sdlError)] := by
  simp only [mainSingle]
  cases hi : o.initOK
  · simp [outputsOf, coutError]
  · cases hw : o.windowOK
    · simp [outputsOf, coutError]
    · cases hr : o.rendererOK
      · simp [outputsOf, coutError]
      · cases hds : o.decodeOK swirlPath <;> cases hcs : o.convertOK swirlPath <;>
          simp [outputsOf, coutError, frameSingle]

/-- C8, as amended.  Every diagnostic the two-texture variant emits goes to
    standard error as `"<operation> error: <library-error>"` (one of five
    fixed operation names); but every diagnostic the single-texture variants
    emit goes to standard *output*, as `"<operation> Error: <library-error>"`
    with a capitalised separator. -/
theorem claim_C8_amended (argv : List String) (o : Oracle) :
    outputsOf (mainTwo argv o).1 ⊆
      [(OutStream.stderr, "SDL_Init" ++ " error: " ++ o.sdlError),
       (OutStream.stderr, "CreateWindow" ++ " error: " ++ o.sdlError),
       (OutStream.stderr, "CreateRenderer" ++ " error: " ++ o.sdlError),
       (OutStream.stderr, "LoadBMP" ++ " error: " ++ o.sdlError),
       (OutStream.stderr, "LoadTexture" ++ " error: " ++ o.sdlError)] ∧
    outputsOf (mainSingle argv o).1 ⊆
      [(OutStream.stdout, "SDL_Init" ++ " Error: " ++ o.sdlError),
       (OutStream.stdout, "SDL_CreateWindow" ++ " Error: " ++ o.sdlError),
       (OutStream.stdout, "SDL_CreateRenderer" ++ " Error: " ++ o.sdlError),
       (OutStream.stdout, "SDL_LoadBMP" ++ " Error: " ++ o.sdlError),
       (OutStream.stdout, "SDL_CreateTextureFromSurface" ++ " Error: " ++ o.sdlError)] :=
  ⟨mainTwo_outputs argv o, mainSingle_outputs argv o⟩

/-- C8 witness: the `SDL_Init` failure diagnostic of the two-texture variant
    at `oInitFail` is among the five standard-error lines. -/
theorem claim_C8_amended_witness :
    (OutStream.stderr, "SDL_Init" ++ " error: " ++ oInitFail.sdlError) ∈
      [(OutStream.stderr, "SDL_Init" ++ " error: " ++ oInitFail.sdlError),
       (OutStream.stderr, "CreateWindow" ++ " error: " ++ oInitFail.sdlError),
       (OutStream.stderr, "CreateRenderer" ++ " error: " ++ oInitFail.sdlError),
       (OutStream.stderr, "LoadBMP" ++ " error: " ++ oInitFail.sdlError),
       (OutStream.stderr, "LoadTexture" ++ " error: " ++ oInitFail.sdlError)] :=
  (claim_C8_amended [] oInitFail).1 (by
    have h : outputsOf (mainTwo [] oInitFail).1 =
        [(OutStream.stderr, "SDL_Init" ++ " error: " ++ oInitFail.sdlError)] := rfl
    rw [h]
    exact List.mem_singleton_self _)

end SDLSpec
